import Mathlib

/-!
Shallow embedding of `src/main.rs` of overflowz/chat-rs, a presence and
direct-messaging relay built on warp/tokio.

The registry `Clients = Arc<Mutex<HashMap<String, Client>>>` is modelled as an
association list from the lowercased-name key to the `Client` record, inside a
`ServerState` that also tracks the set of spawned, not-yet-aborted,
not-yet-fired eviction timer tasks (each `tokio::spawn` of the 10-second sleep
in `client_connected`) and a fresh-id counter standing in for the sources of
fresh values (`uuid::Uuid::new_v4`, timer task identities, channel identities).

Each Rust operation that runs under one acquisition of the mutex becomes one
Lean function on `ServerState`; `handle_registration`, which acquires the lock
twice (once for `contains_key`, once for `insert`), is split into `regCheck`
and `regInsert` so that the interleavings the real code admits between the two
acquisitions are expressible. Rust `to_lowercase` is modelled by the
characterwise `toLowercase` below (they agree on the ASCII fragment used
throughout).
-/

namespace ChatRs

/-- The `Client` struct of main.rs. `name` is the only field serde serializes;
`token` (the credential), `disconnect_timer` (the stored
`tokio::task::JoinHandle`, modelled by the task id) and `tx` (the outbound
`UnboundedSender`, modelled by a channel id) are all marked `#[serde(skip)]`. -/
structure Client where
  name : String
  token : String
  disconnect_timer : Option Nat
  tx : Option Nat
deriving Repr, DecidableEq

/-- One spawned eviction-timer task that has not been aborted and has not yet
fired. `id` is the task identity, `token` the credential captured by the
closure (the task removes every registry entry holding this token when it
fires), `duration` the number of seconds passed to `tokio::time::sleep`. -/
structure Timer where
  id : Nat
  token : String
  duration : Nat
deriving Repr, DecidableEq

/-- The `Message` struct: `from` is the sender display name, `body` the
payload. `from` is a Lean keyword, hence the underscore. -/
structure Message where
  from_ : String
  body : String
deriving Repr, DecidableEq

/-- The `MessageRequest` DTO of `/send_message`. `to` is a Lean keyword,
hence the underscore. -/
structure MessageRequest where
  token : String
  body : String
  to_ : String
deriving Repr, DecidableEq

/-- Rust `String::to_lowercase`, modelled characterwise. On the ASCII fragment
used throughout this development it agrees with the Rust function. (Stated on
`String.data` so that it reduces inside the kernel.) -/
def toLowercase (s : String) : String := ⟨s.data.map Char.toLower⟩

/-- Global server state: the locked `HashMap<String, Client>` plus the live
eviction-timer tasks and the fresh-id counter. -/
structure ServerState where
  clients : List (String × Client)
  timers : List Timer
  nextId : Nat
deriving Repr, DecidableEq

/-- `clients.get(&key)` on the map. -/
def lookupKey (m : List (String × Client)) (k : String) : Option Client :=
  (m.find? (fun kc => kc.1 == k)).map Prod.snd

/-- `clients.insert(key, v)` on the map: replaces the entry at `key` if
present, otherwise appends it. -/
def insertKey (m : List (String × Client)) (k : String) (v : Client) :
    List (String × Client) :=
  match m with
  | [] => [(k, v)]
  | kc :: rest => if kc.1 == k then (k, v) :: rest else kc :: insertKey rest k v

/-- `clients.iter().find(|(_, client)| client.token == token)`. -/
def findByToken (m : List (String × Client)) (t : String) :
    Option (String × Client) :=
  m.find? (fun kc => kc.2.token == t)

/-- Models `uuid::Uuid::new_v4().as_simple().to_string()`: a credential that
has never been issued before, one per registration. -/
def genToken (n : Nat) : String := "uuid" ++ toString n

/-- Outcome of `handle_registration` as seen by the caller: 200 with the token,
or 406 with the name-taken error. -/
inductive RegResult where
  | Ok (token : String)
  | Conflict
deriving Repr, DecidableEq

/-- First critical section of `handle_registration`: under the first lock
acquisition, `contains_key(&request.name.to_lowercase())`. -/
def regCheck (s : ServerState) (name : String) : Bool :=
  (lookupKey s.clients (toLowercase name)).isSome

/-- Second critical section of `handle_registration`: generate the token,
build the `Client` (display name keeps the original casing, no timer, no
channel), and under the second lock acquisition insert it at the lowercased
key. -/
def regInsert (s : ServerState) (name : String) : String × ServerState :=
  let token := genToken s.nextId
  let c : Client := { name := name, token := token, disconnect_timer := none, tx := none }
  (token,
    { s with
        clients := insertKey s.clients (toLowercase name) c
        nextId := s.nextId + 1 })

/-- `handle_registration` run without interleaving between its two lock
acquisitions: conflict check, then token generation and insert. -/
def handle_registration (s : ServerState) (name : String) :
    RegResult × ServerState :=
  if regCheck s name then (RegResult.Conflict, s)
  else
    let ts := regInsert s name
    (RegResult.Ok ts.1, ts.2)

/-- The grace period `Duration::from_secs(10)` in `client_connected`. -/
def GRACE_SECS : Nat := 10

/-- The attach phase of `client_connected` (first critical section): find the
client by token; if found, `take()` the stored timer handle and `abort()` it
(the aborted task disappears from the live-timer set), then install the fresh
channel as `tx`. If no client holds the token, nothing changes. -/
def client_connected_attach (s : ServerState) (token : String) (ch : Nat) :
    ServerState :=
  match findByToken s.clients token with
  | none => s
  | some (k, c) =>
    let timers1 :=
      match c.disconnect_timer with
      | some tid => s.timers.filter (fun t => t.id != tid)
      | none => s.timers
    let c1 : Client := { c with disconnect_timer := none, tx := some ch }
    { s with clients := insertKey s.clients k c1, timers := timers1 }

/-- The disconnect-cleanup phase of `client_connected` (critical section after
the websocket loop ends): find the client by token; if found, spawn the
10-second eviction task and store its handle in `disconnect_timer`. The plain
assignment drops any previously stored `JoinHandle` WITHOUT aborting it, so an
older timer task, if any, stays live in `timers`. The `tx` field is not
touched. -/
def client_connected_detach (s : ServerState) (token : String) : ServerState :=
  match findByToken s.clients token with
  | none => s
  | some (k, c) =>
    let tid := s.nextId
    let c1 : Client := { c with disconnect_timer := some tid }
    { s with
        clients := insertKey s.clients k c1
        timers := s.timers ++ [{ id := tid, token := token, duration := GRACE_SECS }]
        nextId := s.nextId + 1 }

/-- A spawned eviction task reaching the end of its sleep. If the task was
aborted (absent from `timers`) nothing happens; otherwise it runs
`clients.retain(|_, client| client.token != token)` with its captured token
and is done. -/
def timerFire (s : ServerState) (tid : Nat) : ServerState :=
  match s.timers.find? (fun t => t.id == tid) with
  | none => s
  | some t =>
    { s with
        clients := s.clients.filter (fun kc => kc.2.token != t.token)
        timers := s.timers.filter (fun t2 => t2.id != tid) }

/-- Outcome of `handle_send_message`, one constructor per exit point of the
handler in source order: `RecipientNotFound` is the `reject::not_found` when
`clients.get(&request.to.to_lowercase())` misses, `Unauthorized` the plain
`reject` when no client holds `request.token`, `RecipientOffline` the
`reject::not_found` when the recipient `tx` is `None`, and `Delivered` the
`Ok(warp::reply())` after the message is handed to the channel. -/
inductive RouteResult where
  | Delivered (m : Message)
  | RecipientNotFound
  | Unauthorized
  | RecipientOffline
deriving Repr, DecidableEq

/-- `handle_send_message`: recipient lookup by lowercased name first, then
sender lookup by token, then the channel check, then the send. -/
def handle_send_message (s : ServerState) (req : MessageRequest) : RouteResult :=
  match lookupKey s.clients (toLowercase req.to_) with
  | none => RouteResult.RecipientNotFound
  | some recipient =>
    match findByToken s.clients req.token with
    | none => RouteResult.Unauthorized
    | some kc =>
      match recipient.tx with
      | none => RouteResult.RecipientOffline
      | some _ => RouteResult.Delivered { from_ := kc.2.name, body := req.body }

/-- `handle_status`: find the client whose token matches; 200 with the client
on success, rejection (modelled `none`) otherwise. -/
def handle_status (s : ServerState) (token : String) : Option Client :=
  (findByToken s.clients token).map Prod.snd

/-- What serde actually emits for a `Client`: every field except `name` is
`#[serde(skip)]`, so the serialized record carries the name alone. -/
structure ClientView where
  name : String
deriving Repr, DecidableEq

/-- Serialization of one `Client` (`warp::reply::json(&client)`). -/
def clientToJson (c : Client) : ClientView := { name := c.name }

/-- The serialized body of a 200 `/status/token` response. -/
def handle_status_body (s : ServerState) (token : String) : Option ClientView :=
  (handle_status s token).map clientToJson

/-- `handle_list_clients`: serialize every registry entry. -/
def handle_list_clients (s : ServerState) : List ClientView :=
  s.clients.map (fun kc => clientToJson kc.2)

/-- Well-formedness maintained by every operation: each entry is stored at the
lowercased display name. -/
def StateWF (s : ServerState) : Prop :=
  ∀ kc ∈ s.clients, kc.1 = toLowercase kc.2.name

instance (s : ServerState) : Decidable (StateWF s) := by
  unfold StateWF
  infer_instance

/-! Supporting lemmas about the association-list registry. -/

theorem find?_insertKey_self (m : List (String × Client)) (k : String) (v : Client) :
    (insertKey m k v).find? (fun kc => kc.1 == k) = some (k, v) := by
  induction m with
  | nil => simp [insertKey]
  | cons kc rest ih =>
    simp only [insertKey]
    by_cases h : kc.1 = k
    · simp [h]
    · have hb : (kc.1 == k) = false := by simp [h]
      simp [hb, h, ih]

theorem lookupKey_insertKey_self (m : List (String × Client)) (k : String) (v : Client) :
    lookupKey (insertKey m k v) k = some v := by
  simp [lookupKey, find?_insertKey_self]

theorem mem_insertKey {m : List (String × Client)} {k : String} {v : Client}
    {kc : String × Client} (h : kc ∈ insertKey m k v) : kc = (k, v) ∨ kc ∈ m := by
  induction m with
  | nil => simpa [insertKey] using h
  | cons kc0 rest ih =>
    simp only [insertKey] at h
    by_cases h0 : kc0.1 = k
    · simp only [h0, beq_self_eq_true, if_true, List.mem_cons] at h
      rcases h with h | h
      · exact Or.inl h
      · exact Or.inr (List.mem_cons_of_mem _ h)
    · have hb : (kc0.1 == k) = false := by simp [h0]
      simp only [hb, Bool.false_eq_true, if_false, List.mem_cons] at h
      rcases h with h | h
      · exact Or.inr (by simp [h])
      · rcases ih h with h1 | h1
        · exact Or.inl h1
        · exact Or.inr (List.mem_cons_of_mem _ h1)

theorem self_mem_insertKey (m : List (String × Client)) (k : String) (v : Client) :
    (k, v) ∈ insertKey m k v := by
  induction m with
  | nil => simp [insertKey]
  | cons kc0 rest ih =>
    simp only [insertKey]
    by_cases h0 : kc0.1 = k
    · simp [h0]
    · have hb : (kc0.1 == k) = false := by simp [h0]
      simp [hb, ih]

theorem lookupKey_isSome_iff (m : List (String × Client)) (k : String) :
    (lookupKey m k).isSome ↔ ∃ kc ∈ m, kc.1 = k := by
  simp [lookupKey, List.find?_isSome]

theorem lookupKey_eq_none_iff (m : List (String × Client)) (k : String) :
    lookupKey m k = none ↔ ∀ kc ∈ m, kc.1 ≠ k := by
  simp [lookupKey, List.find?_eq_none]

theorem findByToken_eq_some {m : List (String × Client)} {t : String}
    {kc : String × Client} (h : findByToken m t = some kc) :
    kc ∈ m ∧ kc.2.token = t := by
  refine ⟨List.mem_of_find?_eq_some h, ?_⟩
  have := List.find?_some h
  simpa using this

theorem findByToken_isSome_iff (m : List (String × Client)) (t : String) :
    (findByToken m t).isSome ↔ ∃ kc ∈ m, kc.2.token = t := by
  simp [findByToken, List.find?_isSome]

theorem findByToken_eq_none_iff (m : List (String × Client)) (t : String) :
    findByToken m t = none ↔ ∀ kc ∈ m, kc.2.token ≠ t := by
  simp [findByToken, List.find?_eq_none]

/-- In a registry with no duplicate keys, the entry at a key is unique. -/
theorem keyUnique {m : List (String × Client)}
    (hnd : (m.map Prod.fst).Nodup) {k : String} {c x : Client}
    (h1 : (k, c) ∈ m) (h2 : (k, x) ∈ m) : x = c := by
  induction m with
  | nil => cases h1
  | cons kc0 rest ih =>
    simp only [List.map_cons, List.nodup_cons] at hnd
    rcases List.mem_cons.mp h1 with e1 | m1
    · rcases List.mem_cons.mp h2 with e2 | m2
      · rw [← e1] at e2; exact ((Prod.mk.injEq _ _ _ _).mp e2).2
      · exfalso
        exact hnd.1 (by simpa [← e1] using (List.mem_map_of_mem Prod.fst m2))
    · rcases List.mem_cons.mp h2 with e2 | m2
      · exfalso
        exact hnd.1 (by simpa [← e2] using (List.mem_map_of_mem Prod.fst m1))
      · exact ih hnd.2 m1 m2

/-! Theorems settling the claims. -/

/-- C1: the claim says a client in the Grace state (detach completed, timer
running, no re-attach) has no outbound channel, so routing to it returns
`RecipientOffline`. The code violates this: the disconnect cleanup in
`client_connected` stores the eviction timer but never clears `tx`, so the
Grace client keeps its channel and a message routed to it is `Delivered`
(HTTP 200). Trace: register Alice and Bob, attach Bob on channel 7, Bob
disconnects; Bob then holds both a running timer and a live channel, and a
message from Alice to Bob is delivered. -/
theorem grace_client_route_delivered :
    (let s4 :=
      client_connected_detach
        (client_connected_attach
          (handle_registration (handle_registration ⟨[], [], 0⟩ "Alice").2 "Bob").2
          "uuid1" 7)
        "uuid1"
     handle_status s4 "uuid1"
        = some { name := "Bob", token := "uuid1", disconnect_timer := some 2, tx := some 7 }
      ∧ s4.timers = [{ id := 2, token := "uuid1", duration := 10 }]
      ∧ handle_send_message s4 { token := "uuid0", body := "hi", to_ := "Bob" }
          = RouteResult.Delivered { from_ := "Alice", body := "hi" }
      ∧ handle_send_message s4 { token := "uuid0", body := "hi", to_ := "Bob" }
          ≠ RouteResult.RecipientOffline) := by
  decide

/-- C2 counterexample: with only Alice registered, a send whose sender token
matches no client and whose recipient name is unknown results in
`RecipientNotFound` (the not-found rejection of the recipient lookup), not
`Unauthorized`: the recipient is resolved before the sender. -/
theorem route_unknown_sender_unknown_recipient :
    (let s : ServerState :=
      ⟨[("alice", { name := "Alice", token := "uuid0", disconnect_timer := none, tx := none })],
        [], 1⟩
     findByToken s.clients "badtoken" = none
      ∧ handle_send_message s { token := "badtoken", body := "hi", to_ := "ghost" }
          = RouteResult.RecipientNotFound
      ∧ handle_send_message s { token := "badtoken", body := "hi", to_ := "ghost" }
          ≠ RouteResult.Unauthorized) := by
  decide

/-- C2 (amended): `handle_send_message` resolves the recipient first. When the
sender credential matches no client, the result is `Unauthorized` exactly when
the recipient name resolves; when the recipient name does not resolve the
result is `RecipientNotFound`, whatever the sender. -/
theorem route_sender_checked_after_recipient (s : ServerState) (req : MessageRequest)
    (hs : findByToken s.clients req.token = none) :
    (lookupKey s.clients (toLowercase req.to_) = none →
        handle_send_message s req = RouteResult.RecipientNotFound)
    ∧ ∀ c, lookupKey s.clients (toLowercase req.to_) = some c →
        handle_send_message s req = RouteResult.Unauthorized := by
  constructor
  · intro h
    simp [handle_send_message, h]
  · intro c h
    simp [handle_send_message, h, hs]

/-- Witness for C2 (amended) at a concrete input: unknown sender, known
recipient, hence `Unauthorized`. -/
theorem route_sender_checked_after_recipient_witness :
    handle_send_message
        ⟨[("alice", { name := "Alice", token := "uuid0", disconnect_timer := none, tx := none })],
          [], 1⟩
        { token := "badtoken", body := "hi", to_ := "Alice" }
      = RouteResult.Unauthorized :=
  (route_sender_checked_after_recipient
      ⟨[("alice", { name := "Alice", token := "uuid0", disconnect_timer := none, tx := none })],
        [], 1⟩
      { token := "badtoken", body := "hi", to_ := "Alice" }
      (by decide)).2
    { name := "Alice", token := "uuid0", disconnect_timer := none, tx := none }
    (by decide)

/-- C3: registration fails with Conflict exactly when some existing entry has
the same lowercased name; otherwise the new client is stored at the lowercased
key with the display name keeping its original casing and the freshly
generated token is returned. Concretely: "Alice" then "alice" conflicts,
"Alice" then "Bob" both succeed with distinct tokens. -/
theorem register_conflict_iff (s : ServerState) (n : String) (hwf : StateWF s) :
    ((handle_registration s n).1 = RegResult.Conflict ↔
      ∃ kc ∈ s.clients, toLowercase kc.2.name = toLowercase n)
    ∧ (regCheck s n = false →
        handle_registration s n
          = (RegResult.Ok (genToken s.nextId),
             { s with
                clients := insertKey s.clients (toLowercase n)
                  { name := n, token := genToken s.nextId,
                    disconnect_timer := none, tx := none }
                nextId := s.nextId + 1 })
        ∧ lookupKey (handle_registration s n).2.clients (toLowercase n)
            = some { name := n, token := genToken s.nextId,
                     disconnect_timer := none, tx := none })
    ∧ (handle_registration (handle_registration ⟨[], [], 0⟩ "Alice").2 "alice").1
        = RegResult.Conflict
    ∧ (handle_registration ⟨[], [], 0⟩ "Alice").1 = RegResult.Ok "uuid0"
    ∧ (handle_registration (handle_registration ⟨[], [], 0⟩ "Alice").2 "Bob").1
        = RegResult.Ok "uuid1" := by
  refine ⟨⟨?_, ?_⟩, ?_, by decide, by decide, by decide⟩
  · intro h
    by_cases hc : regCheck s n = true
    · rcases (lookupKey_isSome_iff _ _).mp hc with ⟨kc, hm, hk⟩
      exact ⟨kc, hm, by rw [← hwf kc hm, hk]⟩
    · simp [handle_registration, hc] at h
  · rintro ⟨kc, hm, hk⟩
    have hs : (lookupKey s.clients (toLowercase n)).isSome :=
      (lookupKey_isSome_iff _ _).mpr ⟨kc, hm, by rw [hwf kc hm, hk]⟩
    simp [handle_registration, regCheck, hs]
  · intro hc
    refine ⟨?_, ?_⟩
    · simp [handle_registration, hc, regInsert]
    · simp [handle_registration, hc, regInsert, lookupKey_insertKey_self]

/-- Witness for C3 at a concrete input: with "alice" registered, registering
"ALICE" conflicts. -/
theorem register_conflict_iff_witness :
    (handle_registration
        ⟨[("alice", { name := "Alice", token := "uuid0", disconnect_timer := none, tx := none })],
          [], 1⟩ "ALICE").1 = RegResult.Conflict :=
  (register_conflict_iff
      ⟨[("alice", { name := "Alice", token := "uuid0", disconnect_timer := none, tx := none })],
        [], 1⟩ "ALICE" (by decide)).1.mpr
    ⟨("alice", { name := "Alice", token := "uuid0", disconnect_timer := none, tx := none }),
      by decide, by decide⟩

/-- C10: when registration returns Conflict the whole server state is left
unchanged: no entry is added, changed or removed, and the fresh-value counter
is untouched, so no credential is generated for the failed request. -/
theorem register_conflict_state_unchanged (s : ServerState) (n : String)
    (h : (handle_registration s n).1 = RegResult.Conflict) :
    handle_registration s n = (RegResult.Conflict, s) := by
  by_cases hc : regCheck s n = true
  · simp [handle_registration, hc]
  · simp [handle_registration, hc] at h

/-- Witness for C10: registering "ALICE" over an existing "alice" returns
Conflict and the state as it was. -/
theorem register_conflict_state_unchanged_witness :
    handle_registration
        ⟨[("alice", { name := "Alice", token := "uuid0", disconnect_timer := none, tx := none })],
          [], 1⟩ "ALICE"
      = (RegResult.Conflict,
         ⟨[("alice", { name := "Alice", token := "uuid0", disconnect_timer := none, tx := none })],
           [], 1⟩) :=
  register_conflict_state_unchanged
    ⟨[("alice", { name := "Alice", token := "uuid0", disconnect_timer := none, tx := none })],
      [], 1⟩ "ALICE" (by decide)

/-- C4: the claim says a second detach in a row is a no-op, with at most one
eviction timer running. The code violates this: the cleanup assigns a freshly
spawned task into `disconnect_timer`, dropping the previous `JoinHandle`
without aborting it, so after two detaches two timer tasks are live for the
same client; the second detach also visibly changes the state. Entry removal
itself stays idempotent: the first firing empties the registry, the second
firing leaves it empty. -/
theorem detach_twice_two_live_timers :
    (let s2 := client_connected_attach (handle_registration ⟨[], [], 0⟩ "Bob").2 "uuid0" 5
     let d1 := client_connected_detach s2 "uuid0"
     let d2 := client_connected_detach d1 "uuid0"
     d2.timers = [{ id := 1, token := "uuid0", duration := 10 },
                  { id := 2, token := "uuid0", duration := 10 }]
      ∧ d2 ≠ d1
      ∧ (timerFire d2 1).clients = []
      ∧ (timerFire (timerFire d2 1) 2).clients = []) := by
  decide

/-- C6: the claim says a superseded timer instance fires as a no-op. The code
violates this: a firing timer unconditionally retains all entries whose token
differs from its captured token, with no check that it is still the stored
instance. Trace: Bob attaches, detaches twice (leaving the superseded task 1
live), re-attaches on channel 6 (which aborts only the stored task 2); the
stale task 1 then fires and evicts the reconnected client. -/
theorem stale_timer_evicts_reconnected_client :
    (let s5 :=
      client_connected_attach
        (client_connected_detach
          (client_connected_detach
            (client_connected_attach (handle_registration ⟨[], [], 0⟩ "Bob").2 "uuid0" 5)
            "uuid0")
          "uuid0")
        "uuid0" 6
     lookupKey s5.clients "bob"
        = some { name := "Bob", token := "uuid0", disconnect_timer := none, tx := some 6 }
      ∧ s5.timers = [{ id := 1, token := "uuid0", duration := 10 }]
      ∧ (timerFire s5 1).clients = []
      ∧ handle_status (timerFire s5 1) "uuid0" = none) := by
  decide

/-- C8: the claim says the check-then-insert of registration is one critical
section, so of two concurrent registrations of one name exactly one wins and
the other gets Conflict. The code violates this: the lock is released between
`contains_key` and `insert`, admitting the interleaving check-check-insert-
insert in which both callers pass the check (against the same unmodified
state) and both receive 200 with a token; the second insert overwrites the
first entry, leaving the first token unresolvable. -/
theorem register_check_insert_race :
    (let s0 : ServerState := ⟨[], [], 0⟩
     let i1 := regInsert s0 "alice"
     let i2 := regInsert i1.2 "alice"
     regCheck s0 "alice" = false
      ∧ i1.1 = "uuid0" ∧ i2.1 = "uuid1" ∧ i1.1 ≠ i2.1
      ∧ handle_status i2.2 i1.1 = none
      ∧ handle_status i2.2 i2.1
          = some { name := "alice", token := "uuid1", disconnect_timer := none, tx := none }
      ∧ i2.2.clients.length = 1) := by
  decide

/-- C5: after the attach phase of `client_connected` completes on the client
located by the credential, that client holds the installed channel as `tx` and
no stored eviction timer, and the timer handle it held before, if any, has
been aborted: its task is no longer live. -/
theorem attach_installs_channel_and_cancels_timer (s : ServerState) (token : String)
    (ch : Nat) (k : String) (c : Client)
    (h : findByToken s.clients token = some (k, c)) :
    lookupKey (client_connected_attach s token ch).clients k
        = some { c with disconnect_timer := none, tx := some ch }
    ∧ ∀ tid, c.disconnect_timer = some tid →
        ∀ t ∈ (client_connected_attach s token ch).timers, t.id ≠ tid := by
  constructor
  · simp [client_connected_attach, h, lookupKey_insertKey_self]
  · intro tid htid t ht
    simp [client_connected_attach, h, htid, List.mem_filter] at ht
    exact ht.2

/-- Witness for C5 at a concrete input: Bob in the grace state with stored
timer 1 re-attaches on channel 9; the entry then holds channel 9 and no timer,
and task 1 is no longer live. -/
theorem attach_installs_channel_and_cancels_timer_witness :
    lookupKey
        (client_connected_attach
          ⟨[("bob", { name := "Bob", token := "uuid0", disconnect_timer := some 1, tx := none })],
            [{ id := 1, token := "uuid0", duration := 10 }], 2⟩
          "uuid0" 9).clients "bob"
      = some { name := "Bob", token := "uuid0", disconnect_timer := none, tx := some 9 }
    ∧ ∀ t ∈ (client_connected_attach
          ⟨[("bob", { name := "Bob", token := "uuid0", disconnect_timer := some 1, tx := none })],
            [{ id := 1, token := "uuid0", duration := 10 }], 2⟩
          "uuid0" 9).timers, t.id ≠ 1 := by
  have h := attach_installs_channel_and_cancels_timer
    ⟨[("bob", { name := "Bob", token := "uuid0", disconnect_timer := some 1, tx := none })],
      [{ id := 1, token := "uuid0", duration := 10 }], 2⟩
    "uuid0" 9 "bob"
    { name := "Bob", token := "uuid0", disconnect_timer := some 1, tx := none }
    (by decide)
  exact ⟨h.1, h.2 1 rfl⟩

/-- C9: for a client located by its token, detaching stores a freshly spawned
timer task with the fixed 10-second grace duration; before that task fires the
credential is still resolvable; firing the task removes every entry holding
the token, after which a status lookup with the credential is rejected and a
route naming the client yields RecipientNotFound. -/
theorem grace_period_then_eviction (s : ServerState) (tok k : String) (c : Client)
    (h : findByToken s.clients tok = some (k, c))
    (hfresh : ∀ t ∈ s.timers, t.id ≠ s.nextId)
    (hnd : (s.clients.map Prod.fst).Nodup) :
    GRACE_SECS = 10
    ∧ ({ id := s.nextId, token := tok, duration := GRACE_SECS } : Timer)
        ∈ (client_connected_detach s tok).timers
    ∧ (handle_status (client_connected_detach s tok) tok).isSome
    ∧ handle_status (timerFire (client_connected_detach s tok) s.nextId) tok = none
    ∧ ∀ req : MessageRequest, toLowercase req.to_ = k →
        handle_send_message (timerFire (client_connected_detach s tok) s.nextId) req
          = RouteResult.RecipientNotFound := by
  obtain ⟨hmem, htok⟩ := findByToken_eq_some h
  have hsd : client_connected_detach s tok
      = { s with
            clients := insertKey s.clients k { c with disconnect_timer := some s.nextId }
            timers := s.timers ++ [{ id := s.nextId, token := tok, duration := GRACE_SECS }]
            nextId := s.nextId + 1 } := by
    simp [client_connected_detach, h]
  have hfind : (s.timers
        ++ [({ id := s.nextId, token := tok, duration := GRACE_SECS } : Timer)]).find?
        (fun t => t.id == s.nextId)
      = some { id := s.nextId, token := tok, duration := GRACE_SECS } := by
    rw [List.find?_append]
    have hn : s.timers.find? (fun t => t.id == s.nextId) = none :=
      List.find?_eq_none.mpr (fun t ht => by simpa using hfresh t ht)
    simp [hn]
  have hfire : timerFire (client_connected_detach s tok) s.nextId
      = { s with
            clients := (insertKey s.clients k { c with disconnect_timer := some s.nextId }).filter
              (fun kc => kc.2.token != tok)
            timers := (s.timers
                ++ [({ id := s.nextId, token := tok, duration := GRACE_SECS } : Timer)]).filter
              (fun t2 => t2.id != s.nextId)
            nextId := s.nextId + 1 } := by
    rw [hsd]
    simp only [timerFire]
    rw [hfind]
  have hnotok : ∀ kc ∈ (insertKey s.clients k { c with disconnect_timer := some s.nextId }).filter
      (fun kc => kc.2.token != tok), kc.2.token ≠ tok := by
    intro kc hkc
    simpa using (List.mem_filter.mp hkc).2
  refine ⟨rfl, ?_, ?_, ?_, ?_⟩
  · rw [hsd]
    simp
  · rw [hsd]
    have hin : (findByToken
        (insertKey s.clients k { c with disconnect_timer := some s.nextId }) tok).isSome :=
      (findByToken_isSome_iff _ _).mpr
        ⟨(k, { c with disconnect_timer := some s.nextId }), self_mem_insertKey _ _ _, htok⟩
    simpa [handle_status] using hin
  · rw [hfire]
    have hgone : findByToken
        ((insertKey s.clients k { c with disconnect_timer := some s.nextId }).filter
          (fun kc => kc.2.token != tok)) tok = none :=
      (findByToken_eq_none_iff _ _).mpr hnotok
    simp [handle_status, hgone]
  · intro req hreq
    have hkey : lookupKey
        ((insertKey s.clients k { c with disconnect_timer := some s.nextId }).filter
          (fun kc => kc.2.token != tok)) (toLowercase req.to_) = none := by
      rw [hreq]
      refine (lookupKey_eq_none_iff _ _).mpr ?_
      intro kc hkc hk1
      have hmem2 := (List.mem_filter.mp hkc).1
      have hne := hnotok kc hkc
      rcases mem_insertKey hmem2 with he | hm
      · rw [he] at hne
        exact hne htok
      · have hkm : (k, kc.2) ∈ s.clients := by
          rw [← hk1]
          simpa using hm
        have hkc2 : kc.2 = c := keyUnique hnd hmem hkm
        exact hne (by rw [hkc2, htok])
    rw [hfire]
    simp [handle_send_message, hkey]

/-- Witness for C9 at a concrete input: Bob is attached, detaches, the spawned
timer fires; afterwards neither a status lookup with his token nor a route to
his name resolves. -/
theorem grace_period_then_eviction_witness :
    handle_status
        (timerFire
          (client_connected_detach
            ⟨[("bob", { name := "Bob", token := "uuid0", disconnect_timer := none, tx := some 5 })],
              [], 1⟩ "uuid0") 1) "uuid0" = none
    ∧ handle_send_message
        (timerFire
          (client_connected_detach
            ⟨[("bob", { name := "Bob", token := "uuid0", disconnect_timer := none, tx := some 5 })],
              [], 1⟩ "uuid0") 1)
        { token := "uuid0", body := "hi", to_ := "Bob" }
      = RouteResult.RecipientNotFound := by
  have h := grace_period_then_eviction
    ⟨[("bob", { name := "Bob", token := "uuid0", disconnect_timer := none, tx := some 5 })],
      [], 1⟩ "uuid0" "bob"
    { name := "Bob", token := "uuid0", disconnect_timer := none, tx := some 5 }
    (by decide) (by decide) (by decide)
  exact ⟨h.2.2.2.1, h.2.2.2.2 { token := "uuid0", body := "hi", to_ := "Bob" } (by decide)⟩

/-- C7 counterexample: two registries whose single client records differ only
in the credential field produce different `/status` responses for the same
path parameter: one resolves to the name-only body, the other is rejected. -/
theorem status_distinguishes_credentials :
    (let sA : ServerState :=
      ⟨[("bob", { name := "Bob", token := "t1", disconnect_timer := none, tx := none })], [], 5⟩
     let sB : ServerState :=
      ⟨[("bob", { name := "Bob", token := "t2", disconnect_timer := none, tx := none })], [], 5⟩
     sA.clients.map (fun kc => (kc.1, kc.2.name, kc.2.disconnect_timer, kc.2.tx))
        = sB.clients.map (fun kc => (kc.1, kc.2.name, kc.2.disconnect_timer, kc.2.tx))
      ∧ handle_status_body sA "t1" = some { name := "Bob" }
      ∧ handle_status_body sB "t1" = none
      ∧ handle_status_body sA "t1" ≠ handle_status_body sB "t1") := by
  decide

/-- Two registries agreeing pointwise on key and display name, free to differ
in every serde-skipped field including the credential. -/
abbrev SameNames (s1 s2 : ServerState) : Prop :=
  s1.clients.map (fun kc => (kc.1, kc.2.name))
    = s2.clients.map (fun kc => (kc.1, kc.2.name))

/-- Two registries agreeing pointwise on key, display name and credential,
free to differ in channels and timers. -/
abbrev SameNamesTokens (s1 s2 : ServerState) : Prop :=
  s1.clients.map (fun kc => (kc.1, kc.2.name, kc.2.token))
    = s2.clients.map (fun kc => (kc.1, kc.2.name, kc.2.token))

theorem findByToken_view_congr (t : String) :
    ∀ (l1 l2 : List (String × Client)),
      l1.map (fun kc => (kc.1, kc.2.name, kc.2.token))
        = l2.map (fun kc => (kc.1, kc.2.name, kc.2.token)) →
      (l1.find? (fun kc => kc.2.token == t)).map (fun kc => ClientView.mk kc.2.name)
        = (l2.find? (fun kc => kc.2.token == t)).map (fun kc => ClientView.mk kc.2.name) := by
  intro l1
  induction l1 with
  | nil =>
    intro l2 h
    cases l2 with
    | nil => rfl
    | cons kc2 l2 => simp at h
  | cons kc1 l1 ih =>
    intro l2 h
    cases l2 with
    | nil => simp at h
    | cons kc2 l2 =>
      simp only [List.map_cons, List.cons.injEq, Prod.mk.injEq] at h
      obtain ⟨⟨hk, hn, ht⟩, htail⟩ := h
      by_cases hb : (kc1.2.token == t) = true
      · have hb2 : (kc2.2.token == t) = true := by rw [← ht]; exact hb
        have e1 : (kc1 :: l1).find? (fun kc => kc.2.token == t) = some kc1 := by
          simp [hb]
        have e2 : (kc2 :: l2).find? (fun kc => kc.2.token == t) = some kc2 := by
          simp [hb2]
        rw [e1, e2]
        simp [hn]
      · have hb2 : ¬((kc2.2.token == t) = true) := by rw [← ht]; exact hb
        have e1 : (kc1 :: l1).find? (fun kc => kc.2.token == t)
            = l1.find? (fun kc => kc.2.token == t) := by
          simp [hb]
        have e2 : (kc2 :: l2).find? (fun kc => kc.2.token == t)
            = l2.find? (fun kc => kc.2.token == t) := by
          simp [hb2]
        rw [e1, e2]
        exact ih l2 htail

/-- C7 (amended): serde emits only the name for every client. Registries
agreeing on keys and names produce the same `/clients` body whatever their
credentials, channels and timers; registries agreeing on keys, names and
credentials produce the same `/status` response for every path parameter,
whatever their channels and timers. -/
theorem serialization_hides_internal_state (s1 s2 s3 s4 : ServerState) (t : String)
    (h12 : SameNames s1 s2) (h34 : SameNamesTokens s3 s4) :
    handle_list_clients s1 = handle_list_clients s2
    ∧ handle_status_body s3 t = handle_status_body s4 t
    ∧ ∀ c : Client, clientToJson c = { name := c.name } := by
  refine ⟨?_, ?_, fun c => rfl⟩
  · have h := congrArg (List.map (fun p : String × String => ClientView.mk p.2)) h12
    simpa [handle_list_clients, clientToJson, Function.comp] using h
  · have h := findByToken_view_congr t s3.clients s4.clients h34
    simpa [handle_status_body, handle_status, findByToken, clientToJson,
      Option.map_map, Function.comp] using h

/-- Witness for C7 (amended) at concrete inputs: adding a channel and a timer
to a client, or changing its credential as well, leaves the clients list body
unchanged; with the credential kept, the status body is also unchanged. -/
theorem serialization_hides_internal_state_witness :
    handle_list_clients
        ⟨[("bob", { name := "Bob", token := "x", disconnect_timer := none, tx := none })], [], 0⟩
      = handle_list_clients
        ⟨[("bob", { name := "Bob", token := "y", disconnect_timer := some 3, tx := some 4 })], [], 7⟩
    ∧ handle_status_body
        ⟨[("bob", { name := "Bob", token := "t", disconnect_timer := none, tx := none })], [], 0⟩ "t"
      = handle_status_body
        ⟨[("bob", { name := "Bob", token := "t", disconnect_timer := some 3, tx := some 4 })], [], 9⟩ "t" := by
  have h := serialization_hides_internal_state
    ⟨[("bob", { name := "Bob", token := "x", disconnect_timer := none, tx := none })], [], 0⟩
    ⟨[("bob", { name := "Bob", token := "y", disconnect_timer := some 3, tx := some 4 })], [], 7⟩
    ⟨[("bob", { name := "Bob", token := "t", disconnect_timer := none, tx := none })], [], 0⟩
    ⟨[("bob", { name := "Bob", token := "t", disconnect_timer := some 3, tx := some 4 })], [], 9⟩
    "t" (by decide) (by decide)
  exact ⟨h.1, h.2.1⟩

end ChatRs
